import Mathlib

/-!
Verification of the Minecraft crossplay server supervisor
(`server.js` and its Docker variant).

The supervisor is the `MinecraftCrossplayServer` class: it owns the child
process handle (`minecraftProcess`), the lifecycle status string
(`serverStatus`, one of `offline`/`starting`/`online`/`stopping`), the
readiness flag (`serverReady`), the start timestamp (`startTime`) and the
crash counter (`restartAttempts`).  HTTP routes `/start`, `/stop`,
`/command`, `/status` drive it; the child's `stdout` `data`, `error` and
`close` events feed back into it.  Timers (the 15 s restart backoff and the
30 s force-kill deadline) are modelled as counters of pending callbacks,
fired by explicit events.

All definitions below are translated from the source; the event `step`
dispatcher encodes the Node.js runtime's event ordering (stream and exit
callbacks of a child only fire while its handle is the current one, a
`setTimeout` callback fires only if it was armed).
-/

namespace MCServer

/-! ## Output scanner -/

/-- Substring containment, the model of JavaScript `String.prototype.includes`
used by the stdout handler (`message.includes(...)`). -/
def containsSub (s pat : String) : Bool :=
  s.toList.tails.any (fun t => pat.toList.isPrefixOf t)

/-- Lifecycle events produced by the output scanner (spec `LogEvent`). -/
inductive LogEvent where
  | ReadySignal : LogEvent
  | SubsystemReady : String → LogEvent
  | ErrorLine : String → LogEvent
deriving DecidableEq

/-- The readiness check of the stdout handler:
`message.includes('Done (') && message.includes('For help, type "help"')`. -/
def isReadyLine (line : String) : Bool :=
  containsSub line "Done (" && containsSub line "For help, type \"help\""

/-- The stdout handler's three independent containment checks, read as the
spec's stateless classifier `line → events`. -/
def classifyLine (line : String) : List LogEvent :=
  (if isReadyLine line then [LogEvent.ReadySignal] else []) ++
  (if containsSub line "Geyser" && containsSub line "Started Geyser" then
    [LogEvent.SubsystemReady "Geyser"] else []) ++
  (if containsSub line "ViaVersion" && containsSub line "enabled" then
    [LogEvent.SubsystemReady "ViaVersion"] else [])

/-! ## Supervisor state -/

/-- The four values the `serverStatus` string field takes. -/
inductive Status where
  | offline : Status
  | starting : Status
  | online : Status
  | stopping : Status
deriving DecidableEq

/-- The mutable fields of `MinecraftCrossplayServer` that the lifecycle
logic touches, plus observation fields: `stdinWrites` records every string
written to the child's stdin sink, `pendingRestarts`/`pendingKills` count
armed backoff/deadline `setTimeout` callbacks that have not yet fired,
`spawnCount` counts `spawn` calls, `log` records console output. -/
structure SupState where
  minecraftProcess : Option Nat
  serverStatus : Status
  serverReady : Bool
  startTime : Option Nat
  restartAttempts : Nat
  stdinWrites : List String
  pendingRestarts : Nat
  pendingKills : Nat
  spawnCount : Nat
  log : List String
deriving DecidableEq

/-- Field values set in the constructor. -/
def initState : SupState :=
  { minecraftProcess := none
    serverStatus := Status.offline
    serverReady := false
    startTime := none
    restartAttempts := 0
    stdinWrites := []
    pendingRestarts := 0
    pendingKills := 0
    spawnCount := 0
    log := [] }

/-! ## Handlers, translated from `startMinecraftServer` and friends -/

/-- `startMinecraftServer()`: early-return if `this.minecraftProcess` is
set; otherwise set status/ready/startTime and `spawn` the java process
(`pid` names the fresh handle, `now` the clock reading). -/
def startMinecraftServer (now pid : Nat) (s : SupState) : SupState :=
  if s.minecraftProcess.isSome then
    { s with log := s.log ++ ["Server already running"] }
  else
    { s with
      serverStatus := Status.starting
      serverReady := false
      startTime := some now
      minecraftProcess := some pid
      spawnCount := s.spawnCount + 1
      log := s.log ++ ["STARTING DOCKER MINECRAFT CROSSPLAY SERVER"] }

/-- The stdout `data` handler: log the line, then the three containment
checks; the ready check sets status `online`, `serverReady` and resets
`restartAttempts` to 0. -/
def stdoutHandler (line : String) (s : SupState) : SupState :=
  let s1 := { s with log := s.log ++ ["[MC]: " ++ line] }
  let s2 :=
    if isReadyLine line then
      { s1 with
        serverStatus := Status.online
        serverReady := true
        restartAttempts := 0
        log := s1.log ++ ["DOCKER SERVER IS NOW ONLINE!"] }
    else s1
  let s3 :=
    if containsSub line "Geyser" && containsSub line "Started Geyser" then
      { s2 with log := s2.log ++ ["Crossplay bridge (Geyser) is ONLINE!"] }
    else s2
  if containsSub line "ViaVersion" && containsSub line "enabled" then
    { s3 with log := s3.log ++ ["Multi-version support (ViaVersion) is ONLINE!"] }
  else s3

/-- The child `error` (spawn-failure) handler: logs and sets status
`offline`, ready `false`, startTime `null`.  Note: the source does NOT
clear `this.minecraftProcess` here. -/
def errorHandler (s : SupState) : SupState :=
  { s with
    serverStatus := Status.offline
    serverReady := false
    startTime := none
    log := s.log ++ ["Failed to start Minecraft server"] }

/-- The child `close` handler.  `code` is the JS exit code, `none` models
`null` (signal exit); the crash test is `code !== 0`. -/
def closeHandler (code : Option Int) (s : SupState) : SupState :=
  let s1 :=
    { s with
      minecraftProcess := none
      serverStatus := Status.offline
      serverReady := false
      startTime := none
      log := s.log ++ ["Minecraft server exited"] }
  if code ≠ some 0 then
    if s1.restartAttempts < 3 then
      { s1 with
        restartAttempts := s1.restartAttempts + 1
        pendingRestarts := s1.pendingRestarts + 1
        log := s1.log ++ ["Auto-restarting in 15 seconds"] }
    else
      { s1 with log := s1.log ++ ["Maximum restart attempts reached"] }
  else
    { s1 with restartAttempts := 0, log := s1.log ++ ["Server stopped normally"] }

/-- `stopMinecraftServer()`: if a process handle exists, set status
`stopping`, write `stop\n` to its stdin and arm the 30 s force-kill
deadline timer. -/
def stopMinecraftServer (s : SupState) : SupState :=
  if s.minecraftProcess.isSome then
    { s with
      serverStatus := Status.stopping
      stdinWrites := s.stdinWrites ++ ["stop\n"]
      pendingKills := s.pendingKills + 1
      log := s.log ++ ["Stopping Minecraft server"] }
  else s

/-- `executeCommand(command)`: writes `command\n` to stdin only when a
handle exists, `serverReady` holds, and `command` is truthy (non-empty). -/
def executeCommand (command : String) (s : SupState) : SupState :=
  if s.minecraftProcess.isSome && s.serverReady && !command.isEmpty then
    { s with
      stdinWrites := s.stdinWrites ++ [command ++ "\n"]
      log := s.log ++ ["[COMMAND]: " ++ command] }
  else s

/-! ## HTTP routes -/

/-- An HTTP JSON reply: the `success` flag and `message` of the routes. -/
structure Resp where
  success : Bool
  message : String
deriving DecidableEq

/-- `POST /start`: reject while `starting` or `online`, otherwise invoke
`startMinecraftServer` and report success. -/
def startRoute (now pid : Nat) (s : SupState) : SupState × Resp :=
  if s.serverStatus = Status.starting ∨ s.serverStatus = Status.online then
    (s, { success := false, message := "Server is already starting or running" })
  else
    (startMinecraftServer now pid s,
     { success := true, message := "Server is starting..." })

/-- `POST /stop`: reject while `offline`, otherwise invoke
`stopMinecraftServer` and report success. -/
def stopRoute (s : SupState) : SupState × Resp :=
  if s.serverStatus = Status.offline then
    (s, { success := false, message := "Server is already offline" })
  else
    (stopMinecraftServer s, { success := true, message := "Server is stopping..." })

/-- `POST /command`: reject unless `online`, otherwise invoke
`executeCommand` and report success. -/
def commandRoute (command : String) (s : SupState) : SupState × Resp :=
  if s.serverStatus = Status.online then
    (executeCommand command s,
     { success := true, message := "Command executed: " ++ command })
  else
    (s, { success := false, message := "Server must be online to send commands" })

/-- The lifecycle-relevant part of the `GET /status` reply. -/
structure StatusView where
  status : Status
  running : Bool
  ready : Bool
  uptime : Nat
deriving DecidableEq

/-- `GET /status`: `running` is `minecraftProcess !== null`, `uptime` is
`startTime ? floor((now - startTime)/1000) : 0`. -/
def statusRoute (now : Nat) (s : SupState) : StatusView :=
  { status := s.serverStatus
    running := s.minecraftProcess.isSome
    ready := s.serverReady
    uptime := match s.startTime with
      | some t => (now - t) / 1000
      | none => 0 }

/-! ## Event semantics

One logical thread: each event's handler runs to completion (the source
contains no `await` between observing and mutating supervisor state in the
Docker variant).  Stream/exit callbacks only fire while a process handle is
current; a timer callback only fires if armed. -/

/-- The events that can reach the supervisor. -/
inductive Ev where
  | httpStart : Nat → Nat → Ev
  | httpStop : Ev
  | httpCommand : String → Ev
  | stdoutLine : String → Ev
  | procError : Ev
  | procClose : Option Int → Ev
  | restartTimerFire : Nat → Nat → Ev
  | killTimerFire : Ev
deriving DecidableEq

/-- Event dispatch.  The guards on process events and timer events encode
the runtime's event ordering; the handlers themselves are the translations
above. -/
def step (s : SupState) : Ev → SupState
  | Ev.httpStart now pid => (startRoute now pid s).1
  | Ev.httpStop => (stopRoute s).1
  | Ev.httpCommand c => (commandRoute c s).1
  | Ev.stdoutLine line => if s.minecraftProcess.isSome then stdoutHandler line s else s
  | Ev.procError => if s.minecraftProcess.isSome then errorHandler s else s
  | Ev.procClose code => if s.minecraftProcess.isSome then closeHandler code s else s
  | Ev.restartTimerFire now pid =>
      if s.pendingRestarts > 0 then
        startMinecraftServer now pid { s with pendingRestarts := s.pendingRestarts - 1 }
      else s
  | Ev.killTimerFire =>
      if s.pendingKills > 0 then { s with pendingKills := s.pendingKills - 1 } else s

/-- Run a sequence of events. -/
def run (s : SupState) (evs : List Ev) : SupState :=
  evs.foldl step s

/-- A readiness line as printed by the child (short form, used in traces). -/
def readyShort : String := "Done (1s)! For help, type \"help\""

/-! ## The Koyeb variant's start path (`server.js`)

`server.js` differs on the start path: the `/start` route additionally
rejects when `isKoyeb` is set and `javaInstalled` is falsy, and
`startMinecraftServer` contains an `await this.checkAndInstallJava()`
between its guard and the spawn when `isKoyeb && !javaInstalled` — a
suspension point.  `javaInstalled` is never assigned in the constructor
(JS `undefined`, falsy, modelled `false`); it is assigned only when the
awaited check completes.  We model the start path as atomic segments:
`kStartRoute` (route guard plus `startMinecraftServer` up to the await) and
`kResume` (the continuation after the await, which spawns without
re-checking the handle — exactly as in the source). -/

/-- The `server.js` fields relevant to the start path. `suspendedStarts`
counts `startMinecraftServer` invocations parked at the awaited Java
check. -/
structure KState where
  minecraftProcess : Option Nat
  serverStatus : Status
  serverReady : Bool
  startTime : Option Nat
  javaInstalled : Bool
  suspendedStarts : Nat
  spawnCount : Nat
deriving DecidableEq

/-- `server.js` constructor values (`javaInstalled` is `undefined`, falsy). -/
def kInit : KState :=
  { minecraftProcess := none
    serverStatus := Status.offline
    serverReady := false
    startTime := none
    javaInstalled := false
    suspendedStarts := 0
    spawnCount := 0 }

/-- The tail of `server.js`'s `startMinecraftServer` after any await:
set status/ready/startTime and `spawn`. -/
def kSpawn (now pid : Nat) (s : KState) : KState :=
  { s with
    serverStatus := Status.starting
    serverReady := false
    startTime := some now
    minecraftProcess := some pid
    spawnCount := s.spawnCount + 1 }

/-- `server.js` `startMinecraftServer` up to its first suspension point:
early-return on a live handle; suspend at the awaited Java check when
`isKoyeb && !javaInstalled`; otherwise fall through to the spawn. -/
def kStartSeg (isKoyeb : Bool) (now pid : Nat) (s : KState) : KState :=
  if s.minecraftProcess.isSome then s
  else if isKoyeb && !s.javaInstalled then
    { s with suspendedStarts := s.suspendedStarts + 1 }
  else kSpawn now pid s

/-- Resumption of a parked `startMinecraftServer` after
`checkAndInstallJava` returns `ok`: record `javaInstalled := ok`; if the
check failed, return; otherwise proceed to the spawn — the source does not
re-check `this.minecraftProcess` here. -/
def kResume (ok : Bool) (now pid : Nat) (s : KState) : KState :=
  if s.suspendedStarts > 0 then
    let s1 := { s with suspendedStarts := s.suspendedStarts - 1, javaInstalled := ok }
    if ok then kSpawn now pid s1 else s1
  else s

/-- `server.js` `POST /start`: reject while `starting`/`online`, reject
when `isKoyeb && !javaInstalled`, else run the start segment. -/
def kStartRoute (isKoyeb : Bool) (now pid : Nat) (s : KState) : KState :=
  if s.serverStatus = Status.starting ∨ s.serverStatus = Status.online then s
  else if isKoyeb && !s.javaInstalled then s
  else kStartSeg isKoyeb now pid s

/-- Interleavable turns on the `server.js` start path: an HTTP start
request, or the resumption of an awaited Java check. -/
inductive KEv where
  | request : Nat → Nat → KEv
  | resume : Bool → Nat → Nat → KEv
deriving DecidableEq

/-- One cooperative turn of the `server.js` start path. -/
def kStep (isKoyeb : Bool) (s : KState) : KEv → KState
  | KEv.request now pid => kStartRoute isKoyeb now pid s
  | KEv.resume ok now pid => kResume ok now pid s

/-- Run a sequence of interleaved turns. -/
def kRun (isKoyeb : Bool) (s : KState) (evs : List KEv) : KState :=
  evs.foldl (kStep isKoyeb) s

/-! ## Named traces and states used by the theorems -/

/-- A start followed by a crash and the backoff-timer restart: the state is
`starting` again with `restartAttempts = 1`. -/
def sCrashRestarting : SupState :=
  run initState
    [Ev.httpStart 0 1, Ev.procClose (some 1), Ev.restartTimerFire 100 2]

/-- A freshly started (not yet ready) server. -/
def sStarting : SupState := run initState [Ev.httpStart 0 1]

/-- A started server that has printed its readiness line. -/
def sOnline : SupState := run initState [Ev.httpStart 0 1, Ev.stdoutLine readyShort]

/-- An online server on which `/stop` was just invoked. -/
def sStopping : SupState :=
  run initState [Ev.httpStart 0 1, Ev.stdoutLine readyShort, Ev.httpStop]

/-- Three crash/backoff-restart cycles: the state is `starting` (fourth
process live) with `restartAttempts = 3`. -/
def sThirdRestart : SupState :=
  run initState
    [Ev.httpStart 0 1, Ev.procClose (some 1),
     Ev.restartTimerFire 100 2, Ev.procClose (some 1),
     Ev.restartTimerFire 200 3, Ev.procClose (some 1),
     Ev.restartTimerFire 300 4]

/-- Four abnormal exits in a row: the cap is reached, nothing is pending. -/
def sCapReached : SupState := step sThirdRestart (Ev.procClose (some 1))

/-- The trace refuting the `Offline ⇒ no live handle` half of the
state-handle invariant: a start whose spawn fails. -/
def spawnErrorTrace : List Ev := [Ev.httpStart 0 1, Ev.procError]

/-- A crash whose 15 s backoff timer is still pending, followed by a
manual start: the timer survives. -/
def backoffPendingTrace : List Ev :=
  [Ev.httpStart 0 1, Ev.procClose (some 1), Ev.httpStart 100 2]

/-- Run a sequence of HTTP start requests (the claim's scenario: start
calls racing before the first spawn's process produces any event). -/
def runStarts (s : SupState) (reqs : List (Nat × Nat)) : SupState :=
  reqs.foldl (fun t r => (startRoute r.1 r.2 t).1) s

/-! ## Scanner lemmas -/

/-- `containsSub` decides substring containment of the pattern's character
list in the subject's character list. -/
theorem containsSub_iff (s pat : String) :
    containsSub s pat = true ↔ pat.toList <:+: s.toList := by
  unfold containsSub
  rw [List.any_eq_true]
  constructor
  · rintro ⟨t, ht, hp⟩
    rw [List.mem_tails] at ht
    rw [ List.isPrefixOf_iff_prefix] at hp
    exact List.infix_iff_prefix_suffix.2 ⟨t, hp, ht⟩
  · intro h
    obtain ⟨t, hp, ht⟩ := List.infix_iff_prefix_suffix.1 h
    exact ⟨t, (List.mem_tails _ _).2 ht, List.isPrefixOf_iff_prefix.2 hp⟩

/-- `ReadySignal` is classified exactly by the readiness check. -/
theorem readySignal_mem_classifyLine (line : String) :
    LogEvent.ReadySignal ∈ classifyLine line ↔ isReadyLine line = true := by
  unfold classifyLine
  split_ifs <;> simp_all

/-- C4: the output scanner emits `ReadySignal` for every line containing
both the full-initialization marker `"Done ("` and the help-hint marker
`"For help, type \"help\""` (as substrings), and never for a line lacking
the help marker. -/
theorem scanner_ready_iff (line : String) :
    (("Done (".toList <:+: line.toList ∧
        "For help, type \"help\"".toList <:+: line.toList) →
      LogEvent.ReadySignal ∈ classifyLine line) ∧
    (¬ "For help, type \"help\"".toList <:+: line.toList →
      LogEvent.ReadySignal ∉ classifyLine line) := by
  constructor
  · rintro ⟨h1, h2⟩
    rw [readySignal_mem_classifyLine]
    unfold isReadyLine
    rw [Bool.and_eq_true, containsSub_iff, containsSub_iff]
    exact ⟨h1, h2⟩
  · intro h hmem
    rw [readySignal_mem_classifyLine] at hmem
    unfold isReadyLine at hmem
    rw [Bool.and_eq_true, containsSub_iff, containsSub_iff] at hmem
    exact h hmem.2

/-- C4 witness: the spec's sample line yields `ReadySignal`; the same line
truncated before the help hint does not. -/
theorem scanner_ready_iff_witness :
    LogEvent.ReadySignal ∈ classifyLine
      "[12:00:00] [Server thread/INFO]: Done (5.123s)! For help, type \"help\"" ∧
    LogEvent.ReadySignal ∉ classifyLine
      "[12:00:00] [Server thread/INFO]: Done (5.123s)!" :=
  ⟨(scanner_ready_iff _).1 ⟨by decide, by decide⟩,
   (scanner_ready_iff _).2 (by decide)⟩

/-! ## Restart-cap lemmas -/

/-- `startMinecraftServer` does not touch the restart counter. -/
theorem startMinecraftServer_restartAttempts (now pid : Nat) (s : SupState) :
    (startMinecraftServer now pid s).restartAttempts = s.restartAttempts := by
  unfold startMinecraftServer; split <;> rfl

/-- `stopMinecraftServer` does not touch the restart counter. -/
theorem stopMinecraftServer_restartAttempts (s : SupState) :
    (stopMinecraftServer s).restartAttempts = s.restartAttempts := by
  unfold stopMinecraftServer; split <;> rfl

/-- `executeCommand` does not touch the restart counter. -/
theorem executeCommand_restartAttempts (c : String) (s : SupState) :
    (executeCommand c s).restartAttempts = s.restartAttempts := by
  unfold executeCommand; split <;> rfl

/-- The stdout handler only ever resets the restart counter. -/
theorem stdoutHandler_restartAttempts_le (line : String) (s : SupState)
    (h : s.restartAttempts ≤ 3) : (stdoutHandler line s).restartAttempts ≤ 3 := by
  simp only [stdoutHandler]
  split_ifs <;> simp_all

/-- The close handler keeps the restart counter at most 3: it increments
only below the `restartAttempts < 3` cap. -/
theorem closeHandler_restartAttempts_le (code : Option Int) (s : SupState)
    (h : s.restartAttempts ≤ 3) : (closeHandler code s).restartAttempts ≤ 3 := by
  simp only [closeHandler]
  split_ifs <;> simp_all
  omega

/-- Every event preserves `restartAttempts ≤ 3`. -/
theorem step_restartAttempts_le (s : SupState) (e : Ev)
    (h : s.restartAttempts ≤ 3) : (step s e).restartAttempts ≤ 3 := by
  cases e with
  | httpStart now pid =>
      show ((startRoute now pid s).1).restartAttempts ≤ 3
      unfold startRoute; split
      · exact h
      · rw [show ((startMinecraftServer now pid s,
            ({ success := true, message := "Server is starting..." } : Resp)).1)
            = startMinecraftServer now pid s from rfl,
          startMinecraftServer_restartAttempts]
        exact h
  | httpStop =>
      show ((stopRoute s).1).restartAttempts ≤ 3
      unfold stopRoute; split
      · exact h
      · rw [show ((stopMinecraftServer s,
            ({ success := true, message := "Server is stopping..." } : Resp)).1)
            = stopMinecraftServer s from rfl,
          stopMinecraftServer_restartAttempts]
        exact h
  | httpCommand c =>
      show ((commandRoute c s).1).restartAttempts ≤ 3
      unfold commandRoute; split
      · rw [show ((executeCommand c s,
            ({ success := true, message := "Command executed: " ++ c } : Resp)).1)
            = executeCommand c s from rfl,
          executeCommand_restartAttempts]
        exact h
      · exact h
  | stdoutLine line =>
      show (if s.minecraftProcess.isSome then stdoutHandler line s else s).restartAttempts ≤ 3
      split
      · exact stdoutHandler_restartAttempts_le line s h
      · exact h
  | procError =>
      show (if s.minecraftProcess.isSome then errorHandler s else s).restartAttempts ≤ 3
      split
      · exact h
      · exact h
  | procClose code =>
      show (if s.minecraftProcess.isSome then closeHandler code s else s).restartAttempts ≤ 3
      split
      · exact closeHandler_restartAttempts_le code s h
      · exact h
  | restartTimerFire now pid =>
      show (if s.pendingRestarts > 0 then
          startMinecraftServer now pid { s with pendingRestarts := s.pendingRestarts - 1 }
        else s).restartAttempts ≤ 3
      split
      · rw [startMinecraftServer_restartAttempts]; exact h
      · exact h
  | killTimerFire =>
      show (if s.pendingKills > 0 then
          { s with pendingKills := s.pendingKills - 1 } else s).restartAttempts ≤ 3
      split
      · exact h
      · exact h

/-- `restartAttempts ≤ 3` is an invariant of every run. -/
theorem run_restartAttempts_le (evs : List Ev) :
    ∀ s : SupState, s.restartAttempts ≤ 3 → (run s evs).restartAttempts ≤ 3 := by
  induction evs with
  | nil => intro s h; exact h
  | cons e rest ih => intro s h; exact ih (step s e) (step_restartAttempts_le s e h)

/-- At the cap, an abnormal exit schedules nothing: the close handler goes
`offline`, keeps the counter at 3 and arms no new backoff timer. -/
theorem closeHandler_at_cap (code : Option Int) (s : SupState)
    (hc : code ≠ some 0) (h3 : s.restartAttempts = 3) :
    (closeHandler code s).serverStatus = Status.offline ∧
    (closeHandler code s).restartAttempts = 3 ∧
    (closeHandler code s).pendingRestarts = s.pendingRestarts ∧
    (closeHandler code s).spawnCount = s.spawnCount := by
  simp only [closeHandler]
  split_ifs <;> simp_all

/-- From a quiescent `offline` state (no handle, no pending backoff), every
event other than an HTTP start leaves the status `offline`. -/
theorem step_offline_stays (s : SupState) (e : Ev)
    (hst : s.serverStatus = Status.offline)
    (hpr : s.minecraftProcess = none)
    (hpd : s.pendingRestarts = 0)
    (hns : ∀ now pid, e ≠ Ev.httpStart now pid) :
    (step s e).serverStatus = Status.offline := by
  cases e with
  | httpStart now pid => exact absurd rfl (hns now pid)
  | httpStop => simp [step, stopRoute, hst]
  | httpCommand c => simp [step, commandRoute, hst]
  | stdoutLine line => simp [step, hpr, hst]
  | procError => simp [step, hpr, hst]
  | procClose code => simp [step, hpr, hst]
  | restartTimerFire now pid => simp [step, hpd, hst]
  | killTimerFire =>
      simp only [step]
      split <;> exact hst

/-- C1: crash auto-restart is bounded.  (i) Along every event run from the
initial state the restart counter never exceeds 3.  (ii) When the counter
is at 3, a further abnormal exit goes `offline`, keeps the counter at 3 and
schedules no restart (no new backoff timer, no spawn).  (iii) From the
resulting quiescent offline state, only an external HTTP start request can
change the status away from `offline`. -/
theorem restart_cap_three :
    (∀ evs : List Ev, (run initState evs).restartAttempts ≤ 3) ∧
    (∀ (s : SupState) (code : Option Int), code ≠ some 0 → s.restartAttempts = 3 →
      (closeHandler code s).serverStatus = Status.offline ∧
      (closeHandler code s).restartAttempts = 3 ∧
      (closeHandler code s).pendingRestarts = s.pendingRestarts ∧
      (closeHandler code s).spawnCount = s.spawnCount) ∧
    (∀ (s : SupState) (e : Ev), s.serverStatus = Status.offline →
      s.minecraftProcess = none → s.pendingRestarts = 0 →
      (∀ now pid, e ≠ Ev.httpStart now pid) →
      (step s e).serverStatus = Status.offline) :=
  ⟨fun evs => run_restartAttempts_le evs initState (by decide),
   fun s code hc h3 => closeHandler_at_cap code s hc h3,
   fun s e h1 h2 h3 h4 => step_offline_stays s e h1 h2 h3 h4⟩

/-- C1 witness: after three crash/restart cycles the counter is 3; the
fourth abnormal exit keeps it at 3 and arms no backoff timer, and the
resulting offline state survives a stop request. -/
theorem restart_cap_three_witness :
    (run initState [Ev.httpStart 0 1, Ev.procClose (some 1)]).restartAttempts ≤ 3 ∧
    (closeHandler (some 1) sThirdRestart).restartAttempts = 3 ∧
    (closeHandler (some 1) sThirdRestart).pendingRestarts = sThirdRestart.pendingRestarts ∧
    (step sCapReached Ev.httpStop).serverStatus = Status.offline :=
  ⟨restart_cap_three.1 _,
   (restart_cap_three.2.1 sThirdRestart (some 1) (by decide) (by decide)).2.1,
   (restart_cap_three.2.1 sThirdRestart (some 1) (by decide) (by decide)).2.2.1,
   restart_cap_three.2.2 sCapReached Ev.httpStop (by decide) (by decide) (by decide)
     (fun now pid h => Ev.noConfusion h)⟩

/-- C8: a spawn failure (the child's `error` event) transitions the
supervisor to `offline`, is logged, and is never retried automatically:
the handler arms no backoff timer, touches no counter and spawns
nothing. -/
theorem spawn_failure_no_retry (s : SupState) :
    (errorHandler s).serverStatus = Status.offline ∧
    (errorHandler s).serverReady = false ∧
    (errorHandler s).startTime = none ∧
    (errorHandler s).pendingRestarts = s.pendingRestarts ∧
    (errorHandler s).restartAttempts = s.restartAttempts ∧
    (errorHandler s).spawnCount = s.spawnCount ∧
    (errorHandler s).log = s.log ++ ["Failed to start Minecraft server"] :=
  ⟨rfl, rfl, rfl, rfl, rfl, rfl, rfl⟩

/-- C7 is violated by the code: after a spawn failure the error handler
sets the status to `offline` but leaves `minecraftProcess` set, so an
offline state with a live handle is reachable (and `/status` reports
`running: true` while offline). -/
theorem offline_with_live_handle_bug :
    (run initState spawnErrorTrace).serverStatus = Status.offline ∧
    (run initState spawnErrorTrace).minecraftProcess = some 1 ∧
    (statusRoute 0 (run initState spawnErrorTrace)).running = true := by decide

/-- C6 is violated by the code: no timer is ever cancelled
(`stopMinecraftServer` holds no `clearTimeout`).  In the trace below a
user stop is accepted while a crash-backoff timer is pending
(`pendingRestarts = 1`), the stop leaves the timer pending, and after the
stopped process exits the timer fires and spawns a fresh process: the
spawn count rises from 2 to 3 after the stop. -/
theorem backoff_not_cancelled_bug :
    (run initState backoffPendingTrace).pendingRestarts = 1 ∧
    (step (run initState backoffPendingTrace) Ev.httpStop).serverStatus
      = Status.stopping ∧
    (step (run initState backoffPendingTrace) Ev.httpStop).pendingRestarts = 1 ∧
    (run initState (backoffPendingTrace ++
       [Ev.httpStop, Ev.procClose (some 0)])).spawnCount = 2 ∧
    (run initState (backoffPendingTrace ++
       [Ev.httpStop, Ev.procClose (some 0), Ev.restartTimerFire 200 3])).spawnCount
      = 3 ∧
    (run initState (backoffPendingTrace ++
       [Ev.httpStop, Ev.procClose (some 0), Ev.restartTimerFire 200 3])).serverStatus
      = Status.starting := by decide

/-- C2 counterexample: in the reachable state `sCrashRestarting` (status
`starting` after a crash restart, counter at 1) a stop is accepted but
leaves the restart counter at 1, not 0. -/
theorem stop_keeps_counter_cex :
    sCrashRestarting.serverStatus = Status.starting ∧
    sCrashRestarting.restartAttempts = 1 ∧
    ((stopRoute sCrashRestarting).2).success = true ∧
    ((stopRoute sCrashRestarting).1).restartAttempts = 1 := by decide

/-- C2 amended: `requestStop` itself leaves the restart counter unchanged
in every state; the reset to 0 is performed by the close handler's
normal-exit branch (exit code 0), which a completed graceful stop
produces. -/
theorem stop_counter_frame (s : SupState) :
    ((stopRoute s).1).restartAttempts = s.restartAttempts ∧
    (closeHandler (some 0) s).restartAttempts = 0 := by
  constructor
  · unfold stopRoute
    split
    · rfl
    · exact stopMinecraftServer_restartAttempts s
  · simp [closeHandler]

/-- C3 counterexample: in the reachable `stopping` state a start request is
not rejected — the route replies success (the guard in
`startMinecraftServer` merely makes it a no-op). -/
theorem start_in_stopping_cex :
    sStopping.serverStatus = Status.stopping ∧
    ((startRoute 500 9 sStopping).2).success = true := by decide

/-- C3 amended: a start request is rejected with failure and no state
change in `Starting` and `Online`; in `Stopping` (where a live handle
exists) the route wrongly replies success, but the handle guard leaves
status, handle, start timestamp and readiness flag unchanged. -/
theorem start_guard_behavior (now pid : Nat) (s : SupState) :
    ((s.serverStatus = Status.starting ∨ s.serverStatus = Status.online) →
      (startRoute now pid s).2.success = false ∧ (startRoute now pid s).1 = s) ∧
    (s.serverStatus = Status.stopping → s.minecraftProcess.isSome = true →
      (startRoute now pid s).2.success = true ∧
      (startRoute now pid s).1.serverStatus = s.serverStatus ∧
      (startRoute now pid s).1.minecraftProcess = s.minecraftProcess ∧
      (startRoute now pid s).1.startTime = s.startTime ∧
      (startRoute now pid s).1.serverReady = s.serverReady) := by
  constructor
  · intro h
    unfold startRoute
    rw [if_pos h]
    exact ⟨rfl, rfl⟩
  · intro hst hsome
    unfold startRoute
    rw [if_neg (by rw [hst]; rintro (h | h) <;> cases h)]
    unfold startMinecraftServer
    rw [if_pos hsome]
    exact ⟨rfl, rfl, rfl, rfl, rfl⟩

/-- C3 witness: rejection at the online state; wrong success plus
unchanged handle at the stopping state. -/
theorem start_guard_behavior_witness :
    ((startRoute 500 9 sOnline).2.success = false ∧
      (startRoute 500 9 sOnline).1 = sOnline) ∧
    ((startRoute 500 9 sStopping).2.success = true ∧
      (startRoute 500 9 sStopping).1.minecraftProcess = sStopping.minecraftProcess) :=
  ⟨(start_guard_behavior 500 9 sOnline).1 (Or.inr (by decide)),
   ⟨((start_guard_behavior 500 9 sStopping).2 (by decide) (by decide)).1,
    ((start_guard_behavior 500 9 sStopping).2 (by decide) (by decide)).2.2.1⟩⟩

/-- C5 counterexample: with the server online, ready and its handle live,
sending the empty command writes nothing to the stdin sink (empty text is
falsy in JS, so `executeCommand` drops it). -/
theorem empty_command_cex :
    sOnline.serverStatus = Status.online ∧
    sOnline.serverReady = true ∧
    sOnline.minecraftProcess.isSome = true ∧
    ((commandRoute "" sOnline).1).stdinWrites = sOnline.stdinWrites := by decide

/-- C5 amended: the command path writes nothing unless the status is
`online` and the readiness flag holds; when moreover a live handle exists
and the text is non-empty, it writes the text followed by a newline.  In
particular in `Starting` nothing is written. -/
theorem sendCommand_writes (c : String) (s : SupState) :
    (s.serverStatus ≠ Status.online →
      ((commandRoute c s).1).stdinWrites = s.stdinWrites) ∧
    (s.serverReady = false →
      ((commandRoute c s).1).stdinWrites = s.stdinWrites) ∧
    (s.serverStatus = Status.online → s.serverReady = true →
      s.minecraftProcess.isSome = true → c.isEmpty = false →
      ((commandRoute c s).1).stdinWrites = s.stdinWrites ++ [c ++ "\n"]) := by
  refine ⟨?_, ?_, ?_⟩
  · intro h
    unfold commandRoute
    rw [if_neg h]
  · intro h
    unfold commandRoute
    split
    · unfold executeCommand
      rw [h]
      simp
    · rfl
  · intro h1 h2 h3 h4
    unfold commandRoute
    rw [if_pos h1]
    unfold executeCommand
    rw [h3, h2, h4]
    simp

/-- C5 witness: a non-empty command is written while online and ready; the
same command while starting writes nothing. -/
theorem sendCommand_writes_witness :
    ((commandRoute "list" sOnline).1).stdinWrites = sOnline.stdinWrites ++ ["list\n"] ∧
    ((commandRoute "list" sStarting).1).stdinWrites = sStarting.stdinWrites :=
  ⟨(sendCommand_writes "list" sOnline).2.2 (by decide) (by decide) (by decide) (by decide),
   (sendCommand_writes "list" sStarting).1 (by decide)⟩

/-- C10: an accepted stop (non-`offline` status, live handle) sets the
status to `stopping` and writes the shutdown command, leaving readiness
flag, start timestamp, process handle and restart counter untouched; a
status query after the stop therefore still reports the pre-stop readiness
and uptime, and `running: true`. -/
theorem stop_frame_effect (s : SupState)
    (h1 : s.serverStatus ≠ Status.offline)
    (h2 : s.minecraftProcess.isSome = true) :
    (stopRoute s).2.success = true ∧
    ((stopRoute s).1).serverStatus = Status.stopping ∧
    ((stopRoute s).1).stdinWrites = s.stdinWrites ++ ["stop\n"] ∧
    ((stopRoute s).1).serverReady = s.serverReady ∧
    ((stopRoute s).1).startTime = s.startTime ∧
    ((stopRoute s).1).minecraftProcess = s.minecraftProcess ∧
    ((stopRoute s).1).restartAttempts = s.restartAttempts ∧
    (∀ now : Nat,
      (statusRoute now ((stopRoute s).1)).ready = s.serverReady ∧
      (statusRoute now ((stopRoute s).1)).uptime = (statusRoute now s).uptime ∧
      (statusRoute now ((stopRoute s).1)).running = true) := by
  unfold stopRoute
  rw [if_neg h1]
  unfold stopMinecraftServer
  rw [if_pos h2]
  exact ⟨rfl, rfl, rfl, rfl, rfl, rfl, rfl, fun now => ⟨rfl, rfl, h2⟩⟩

/-- C10 witness: stopping the online server keeps `ready = true` and the
running uptime observable through `/status`. -/
theorem stop_frame_effect_witness :
    ((stopRoute sOnline).1).serverStatus = Status.stopping ∧
    (statusRoute 7000 ((stopRoute sOnline).1)).ready = true ∧
    (statusRoute 7000 ((stopRoute sOnline).1)).uptime
      = (statusRoute 7000 sOnline).uptime := by
  have h := stop_frame_effect sOnline (by decide) (by decide)
  exact ⟨h.2.1, by rw [(h.2.2.2.2.2.2.2 7000).1]; decide, (h.2.2.2.2.2.2.2 7000).2.1⟩

/-! ## No-double-spawn -/

/-- Docker variant: from a pre-start or just-started state, any sequence of
start requests spawns at most once — the first accepted request sets
`starting` synchronously, so every later request is rejected. -/
theorem runStarts_spawn_le (reqs : List (Nat × Nat)) :
    ∀ s : SupState,
      ((s.spawnCount = 0 ∧ s.serverStatus = Status.offline ∧
          s.minecraftProcess = none) ∨
        (s.spawnCount = 1 ∧ s.serverStatus = Status.starting)) →
      (runStarts s reqs).spawnCount ≤ 1 := by
  induction reqs with
  | nil => rintro s (⟨h, _, _⟩ | ⟨h, _⟩) <;> simp [runStarts, h]
  | cons r rest ih =>
      rintro s (⟨h1, h2, h3⟩ | ⟨h1, h2⟩)
      · show (runStarts ((startRoute r.1 r.2 s).1) rest).spawnCount ≤ 1
        refine ih _ (Or.inr ?_)
        unfold startRoute
        rw [if_neg (by rw [h2]; rintro (h | h) <;> cases h)]
        unfold startMinecraftServer
        rw [if_neg (by rw [h3]; decide)]
        exact ⟨by show s.spawnCount + 1 = 1; rw [h1], rfl⟩
      · show (runStarts ((startRoute r.1 r.2 s).1) rest).spawnCount ≤ 1
        have heq : (startRoute r.1 r.2 s).1 = s := by
          unfold startRoute
          rw [if_pos (Or.inl h2)]
        rw [heq]
        exact ih s (Or.inr ⟨h1, h2⟩)

/-- Koyeb variant: from the constructor state, any interleaving of start
requests and Java-check resumptions spawns at most once.  The route guard
rejects exactly the `isKoyeb && !javaInstalled` condition under which
`startMinecraftServer` would suspend, so no invocation ever parks at the
await and every accepted start spawns atomically. -/
theorem kRun_spawn_le (koyeb : Bool) (evs : List KEv) :
    ∀ s : KState,
      s.suspendedStarts = 0 →
      ((s.spawnCount = 0 ∧ s.serverStatus = Status.offline ∧
          s.minecraftProcess = none) ∨
        (s.spawnCount = 1 ∧ s.serverStatus = Status.starting)) →
      (kRun koyeb s evs).spawnCount ≤ 1 := by
  induction evs with
  | nil => rintro s hsus (⟨h, _, _⟩ | ⟨h, _⟩) <;> simp [kRun, h]
  | cons e rest ih =>
      rintro s hsus hinv
      show (kRun koyeb (kStep koyeb s e) rest).spawnCount ≤ 1
      cases e with
      | request now pid =>
          rcases hinv with ⟨h1, h2, h3⟩ | ⟨h1, h2⟩
          · by_cases hk : (koyeb && !s.javaInstalled) = true
            · have heq : kStep koyeb s (KEv.request now pid) = s := by
                simp [kStep, kStartRoute, h2, hk]
              rw [heq]
              exact ih s hsus (Or.inl ⟨h1, h2, h3⟩)
            · have heq : kStep koyeb s (KEv.request now pid)
                  = kSpawn now pid s := by
                simp [kStep, kStartRoute, kStartSeg, h2, h3, hk]
              rw [heq]
              refine ih _ (by simpa [kSpawn] using hsus) (Or.inr ?_)
              exact ⟨by show s.spawnCount + 1 = 1; rw [h1], rfl⟩
          · have heq : kStep koyeb s (KEv.request now pid) = s := by
              simp [kStep, kStartRoute, h2]
            rw [heq]
            exact ih s hsus (Or.inr ⟨h1, h2⟩)
      | resume ok now pid =>
          have heq : kStep koyeb s (KEv.resume ok now pid) = s := by
            simp [kStep, kResume, hsus]
          rw [heq]
          exact ih s hsus hinv

/-- C9: at most one process handle is ever created by start requests
racing before the first spawn's process reports anything — in the Docker
variant, and in the Koyeb variant for every interleaving of requests with
resumptions of the awaited Java check (which the route guard makes
unreachable). -/
theorem no_double_spawn :
    (∀ reqs : List (Nat × Nat), (runStarts initState reqs).spawnCount ≤ 1) ∧
    (∀ (koyeb : Bool) (evs : List KEv), (kRun koyeb kInit evs).spawnCount ≤ 1) :=
  ⟨fun reqs => runStarts_spawn_le reqs initState (Or.inl ⟨rfl, rfl, rfl⟩),
   fun koyeb evs => kRun_spawn_le koyeb evs kInit rfl (Or.inl ⟨rfl, rfl, rfl⟩)⟩

end MCServer
